import Mathlib

/-!
Verification of the log-search gateway (src/DOCKER_EXAMPLE/src/index.js):
a shallow embedding of the `POST /search` and `POST /close-pit` handlers.

Modelling conventions:
- JSON scalars are modelled by `JsVal`; JSON numbers are modelled as
  integers (no claim depends on a non-integral value).
- JavaScript `undefined` (an absent field) is modelled by `Option.none`
  at the enclosing field; JSON `null` is `JsVal.null`.
- JavaScript truthiness is `JsVal.truthy`; `a || b` on strings/numbers is
  `strOr` / `numOr` / `jsOr` below ("" and 0 are falsy, arrays and all
  objects are truthy).
- The handlers' engine calls are modelled by passing the engine as a
  function and recording the call trace (bodies of `es.search` calls,
  ids of `es.closePointInTime` calls, index arguments of
  `es.openPointInTime` calls).
-/

/-- A JSON-like value. `null` stands for both JSON null and JS undefined
when it flows as a value; an absent object field is `Option.none` in the
enclosing structure. -/
inductive JsVal where
  | null
  | bool (b : Bool)
  | num (n : Int)
  | str (s : String)
  | arr (xs : List JsVal)

/-- JavaScript truthiness of a `JsVal` (arrays are always truthy, even
when empty). -/
def JsVal.truthy : JsVal → Bool
  | .null => false
  | .bool b => b
  | .num n => n != 0
  | .str s => s != ""
  | .arr _ => true

/-- Source `asArray` (index.js lines 31-34):
`if (v == null) return []; return Array.isArray(v) ? v : [v];`
(`v == null` matches both null and undefined). -/
def asArray : JsVal → List JsVal
  | .null => []
  | .arr xs => xs
  | v => [v]

/-- JS `a || b` for an optional string `a` ("" is falsy). -/
def strOr : Option String → String → String
  | none, d => d
  | some s, d => if s = "" then d else s

/-- JS `a || b` for an optional number `a` (0 is falsy). -/
def numOr : Option Int → Int → Int
  | none, d => d
  | some n, d => if n = 0 then d else n

/-- JS `a || b` for optional `JsVal`s: yields `a` when `a` is present and
truthy, otherwise `b` (which may itself be absent). -/
def jsOr (a b : Option JsVal) : Option JsVal :=
  match a with
  | some v => if v.truthy then some v else b
  | none => b

/-- JS `a || b` where `b` is a plain `JsVal` default. -/
def jsOrVal (a : Option JsVal) (b : JsVal) : JsVal :=
  match a with
  | some v => if v.truthy then v else b
  | none => b

/-- Truthiness filter on an optional string: `some s` survives only when
`s` is non-empty (models `if (!x)` guards on string-valued fields). -/
def strOpt : Option String → Option String
  | none => none
  | some s => if s = "" then none else some s

/-- JS regex `\w` (ASCII word character). -/
def isWordChar (c : Char) : Bool :=
  c.isAlpha || c.isDigit || c = '_'

/-- JS regex `\s` (whitespace), restricted to the ASCII whitespace
characters. -/
def isJsSpace (c : Char) : Bool :=
  c = ' ' || c = '\t' || c = '\n' || c = '\r' ||
  c = Char.ofNat 11 || c = Char.ofNat 12

/-- Source sanitization of the fuzzy leg's query (index.js line 78):
`String(q).replace(/[^\w\s"]/g, " ")` — every character that is not a
word character, whitespace or a double quote is replaced by a space. -/
def sanitize (q : String) : String :=
  String.map (fun c => if isWordChar c || isJsSpace c || c = '"' then c else ' ') q

/-- Field name of an Elasticsearch field spec, with the `^boost` suffix
removed: `fieldBase "message^4" = "message"`. -/
def fieldBase (s : String) : String :=
  String.mk (s.toList.takeWhile (fun c => c ≠ '^'))

/-- Decimal digits to a number (accumulator form). -/
def natOfDigits : List Char → Nat → Nat
  | [], acc => acc
  | c :: cs, acc => natOfDigits cs (acc * 10 + (c.toNat - 48))

/-- Boost of an Elasticsearch field spec (1 when no `^boost` suffix):
`fieldBoost "message^4" = 4`. -/
def fieldBoost (s : String) : Nat :=
  match s.toList.dropWhile (fun c => c ≠ '^') with
  | '^' :: rest => natOfDigits rest 0
  | _ => 1

/-- The requested `size` field: absent, a numeric value (what JS
`Number(size)` evaluates to), or a value on which `Number` yields NaN. -/
inductive SizeArg where
  | absent
  | val (n : Int)
  | nonNumeric
deriving DecidableEq, Repr

/-- The `time` range object of a request; each bound may be absent. -/
structure TimeArg where
  gte : Option String
  lte : Option String
deriving DecidableEq, Repr

/-- The `pit` object of a request (`{id, keep_alive}`); each field may be
absent. -/
structure PitArg where
  id : Option String
  keep_alive : Option String
deriving DecidableEq, Repr

/-- An incoming `POST /search` request body. `none` means the field is
absent (so the destructuring default of index.js lines 50-62 applies). -/
structure SearchReq where
  q : Option String
  services : Option JsVal
  levels : Option JsVal
  time : Option TimeArg
  size : SizeArg
  pit : Option PitArg
  cursor : Option JsVal
  highlight : Option Bool
  includeTimeline : Option Bool
  includeFacets : Option Bool

/-- The structured lexical leg (index.js lines 66-74). -/
structure SimpleQueryString where
  query : String
  fields : List String
  default_operator : String
deriving DecidableEq, Repr

/-- The typo-tolerant fallback leg (index.js lines 76-83). -/
structure MultiMatch where
  query : String
  fields : List String
  fuzziness : String
  prefixLength : Int
deriving DecidableEq, Repr

/-- A clause of the `filter` array (index.js lines 86-90). -/
inductive FilterClause where
  | range (field : String) (gte lte : String)
  | terms (field : String) (vals : List JsVal)

/-- The rescore stage (index.js lines 115-130). -/
structure RescoreCfg where
  window_size : Int
  phrase_field : String
  phrase_query : String
  slop : Int
  boost : Int
  query_weight : Int
  rescore_query_weight : Int
deriving DecidableEq, Repr

/-- The facet term-aggregations (index.js lines 139-143): bucket sizes of
`by_service`, `by_level`, `by_error_code`. -/
structure FacetsCfg where
  service_size : Int
  level_size : Int
  error_code_size : Int
deriving DecidableEq, Repr

/-- The `aggs` object of the composed body: optional facet aggregations
and an optional timeline date-histogram (its `fixed_interval`). -/
structure AggsCfg where
  facets : Option FacetsCfg
  timeline_interval : Option String
deriving DecidableEq, Repr

/-- The composed engine search body (index.js lines 92-162). The
function-score decay parameters, sort and source whitelist are carried
as data; `decay` is the string form of the constant 0.6. -/
structure SearchBody where
  size : Int
  track_total_hits : Bool
  sqs : SimpleQueryString
  mm : MultiMatch
  filter : List FilterClause
  decay_origin : String
  decay_scale : String
  decay : String
  score_mode : String
  boost_mode : String
  sort : List (String × String)
  source_includes : List String
  rescore : RescoreCfg
  highlight : Bool
  aggs : Option AggsCfg
  pit : Option (String × String)
  search_after : Option (List JsVal)

/-- Default `q` (index.js line 51): `'"error" | timeout'`. -/
def defaultQ : String := "\"error\" | timeout"

/-- Fields of the structured leg (index.js line 71). -/
def sqsFields : List String :=
  ["message^4", "service", "path", "error.code", "host"]

/-- Fields of the fuzzy fallback leg (index.js line 79). -/
def mmFields : List String :=
  ["message^3", "path", "service", "host"]

/-- Source `Number(size) || 50` after the destructuring default `size = 100`
(index.js lines 55 and 93): absent gives 100, a NaN-producing value or 0
gives 50, any other number passes through. -/
def sizeOr50 : SizeArg → Int
  | .absent => 100
  | .val n => if n = 0 then 50 else n
  | .nonNumeric => 50

/-- The two sequential conditional assignments to `body.aggs`
(index.js lines 138-151): facet aggregations when `includeFacets`, then
a spread-merge adding `timeline` when `includeTimeline`. -/
def buildAggs (includeFacets includeTimeline : Bool) : Option AggsCfg :=
  let a : Option AggsCfg :=
    if includeFacets then some ⟨some ⟨25, 8, 20⟩, none⟩ else none
  if includeTimeline then
    some ⟨((a.getD ⟨none, none⟩).facets), some "5m"⟩
  else a

/-- The composed search body before the pagination step (index.js lines
64-151): query legs, filters, clamped size, decay scoring, sort, source
whitelist, rescore stage, optional highlight and aggregations. `pit` and
`search_after` are attached later by the handler. -/
def buildBody (req : SearchReq) : SearchBody :=
  let q := req.q.getD defaultQ
  let time := req.time.getD ⟨some "now-24h", some "now"⟩
  let levels := asArray (req.levels.getD (JsVal.arr []))
  let services := asArray (req.services.getD (JsVal.arr []))
  let bsize : Int := min (sizeOr50 req.size) 1000
  { size := bsize
    track_total_hits := true
    sqs := ⟨q, sqsFields, "and"⟩
    mm := ⟨sanitize q, mmFields, "AUTO", 2⟩
    filter :=
      [FilterClause.range "@timestamp" (strOr time.gte "now-24h") (strOr time.lte "now")]
      ++ (if levels.length ≠ 0 then [FilterClause.terms "level" levels] else [])
      ++ (if services.length ≠ 0 then [FilterClause.terms "service" services] else [])
    decay_origin := "now"
    decay_scale := "2h"
    decay := "0.6"
    score_mode := "multiply"
    boost_mode := "multiply"
    sort := [("@timestamp", "desc"), ("_shard_doc", "desc")]
    source_includes :=
      ["@timestamp", "level", "service", "error.code", "host", "path", "message"]
    rescore := ⟨min 1000 bsize, "message", "connection reset", 1, 6, 1, 2⟩
    highlight := req.highlight.getD true
    aggs := buildAggs (req.includeFacets.getD true) (req.includeTimeline.getD true)
    pit := none
    search_after := none }

/-- The `search_after` guard (index.js line 162):
`if (Array.isArray(cursor) && cursor.length) body.search_after = cursor`. -/
def cursorOpt : Option JsVal → Option (List JsVal)
  | some (JsVal.arr xs) => if xs.length ≠ 0 then some xs else none
  | _ => none

/-- The `_source` document fields the handler reads (index.js lines
169-175); `error_code` models the nested access `_source?.error?.code`. -/
structure EngSource where
  timestamp : Option JsVal
  level : Option JsVal
  service : Option JsVal
  error_code : Option JsVal
  host : Option JsVal
  path : Option JsVal
  message : Option JsVal

/-- An engine hit as the handler reads it (index.js lines 166-178):
`highlight_message` models `h.highlight?.message` (an array of
fragments, of which index 0 is taken). -/
structure EngHit where
  _id : String
  sort : List JsVal
  _source : Option EngSource
  highlight_message : Option (List JsVal)
  _score : Option Int

/-- The aggregation results the handler reads (index.js lines 189-196),
each collapsed to its `buckets` array (`none` = the aggregation or its
buckets are absent). -/
structure EngAggs where
  by_service : Option (List JsVal)
  by_level : Option (List JsVal)
  by_error_code : Option (List JsVal)
  timeline : Option (List JsVal)

/-- The `resp.body` envelope fields the handler reads. -/
structure EngRespBody where
  hits_hits : Option (List EngHit)
  hits_total : Option JsVal
  pit_id : Option String
  aggregations : Option EngAggs

/-- An engine search response; the handler tolerates both the
`resp.body.hits` and the bare `resp.hits` envelope shapes
(index.js lines 166 and 186). -/
structure EngResp where
  body : Option EngRespBody
  hits_hits : Option (List EngHit)
  hits_total : Option JsVal

/-- An error thrown by an engine call (or any exception reaching the
route's catch block): the fields the catch handlers read
(index.js lines 202, 205, 220, 223). -/
structure EngErr where
  statusCode : Option Int
  metaStatusCode : Option Int
  metaBodyError : Option JsVal
  message : Option String

/-- Source `err?.statusCode || err?.meta?.statusCode || 500`
(index.js lines 202 and 220). -/
def errStatus (e : EngErr) : Int :=
  numOr e.statusCode (numOr e.metaStatusCode 500)

/-- Source `err?.meta?.body?.error || err?.message || fallback`
(index.js lines 205 and 223). -/
def errBody (e : EngErr) (fallback : String) : JsVal :=
  jsOrVal e.metaBodyError (jsOrVal (e.message.map JsVal.str) (JsVal.str fallback))

/-- A normalized hit of the gateway response (index.js lines 166-178). -/
structure NormHit where
  id : String
  sort : List JsVal
  ts : Option JsVal
  level : Option JsVal
  service : Option JsVal
  code : Option JsVal
  host : Option JsVal
  path : Option JsVal
  message : Option JsVal
  snippet : Option JsVal
  score : Option Int

/-- The facets section of the gateway response (index.js lines 189-195). -/
structure FacetsOut where
  services : List JsVal
  levels : List JsVal
  errorCodes : List JsVal

/-- The success payload of `POST /search` (index.js lines 184-199);
`ok` is always true there so it is left implicit. -/
structure GwResp where
  total : Option JsVal
  pit_id : String
  keep_alive : String
  hits : List NormHit
  facets : Option FacetsOut
  timeline : Option (List JsVal)
  nextCursor : Option (List JsVal)

/-- The per-hit mapping (index.js lines 166-178). -/
def projHit (h : EngHit) : NormHit :=
  ⟨h._id, h.sort,
   h._source.bind EngSource.timestamp,
   h._source.bind EngSource.level,
   h._source.bind EngSource.service,
   h._source.bind EngSource.error_code,
   h._source.bind EngSource.host,
   h._source.bind EngSource.path,
   h._source.bind EngSource.message,
   h.highlight_message.bind List.head?,
   h._score⟩

/-- Source `resp.body?.hits?.hits || resp.hits?.hits || []` (index.js line 166).
Arrays are truthy even when empty, so a present (possibly empty) array
short-circuits. -/
def respHits (r : EngResp) : List EngHit :=
  match r.body.bind EngRespBody.hits_hits with
  | some hs => hs
  | none => r.hits_hits.getD []

/-- The facets section (index.js lines 189-195): built whenever
`resp.body?.aggregations` is present (any object is truthy), with `[]`
fallbacks per facet. -/
def facetsOf : Option EngAggs → Option FacetsOut
  | some a => some ⟨a.by_service.getD [], a.by_level.getD [], a.by_error_code.getD []⟩
  | none => none

/-- Source `hits.length ? hits[hits.length - 1].sort : null` (index.js line 198). -/
def nextCursorOf (hits : List NormHit) : Option (List JsVal) :=
  if hits.length ≠ 0 then (hits.get? (hits.length - 1)).map NormHit.sort else none

/-- Shaping of the success response (index.js lines 166-199): hit
projection, possibly-rotated PIT id, facets gated on
`resp.body?.aggregations`, timeline as `aggregations?.timeline?.buckets`,
and `nextCursor` from the last hit. -/
def project (r : EngResp) (pitId keepAlive : String) : GwResp :=
  let hits := (respHits r).map projHit
  ⟨jsOr (r.body.bind EngRespBody.hits_total) r.hits_total,
   strOr (r.body.bind EngRespBody.pit_id) pitId,
   keepAlive,
   hits,
   facetsOf (r.body.bind EngRespBody.aggregations),
   (r.body.bind EngRespBody.aggregations).bind EngAggs.timeline,
   nextCursorOf hits⟩

/-- Outcome of a `POST /search` call: a 200 success payload or an error
status with the `{ok:false, error}` body's error value. -/
inductive SearchOut where
  | ok (g : GwResp)
  | err (status : Int) (error : JsVal)

/-- A run of the search handler: the `openPointInTime` index arguments,
the `es.search` bodies, and the HTTP outcome. -/
structure SearchRun where
  pitOpens : List String
  searches : List SearchBody
  out : SearchOut

/-- The catch block of the search route (index.js lines 200-207). -/
def catchSearch (e : EngErr) : SearchOut :=
  SearchOut.err (errStatus e) (errBody e "Search error")

/-- The ReferenceError raised by evaluating the undefined `INDEX`
(its declaration at index.js line 28 is commented out) inside the
`openPointInTime` argument at line 158; it carries no engine status. -/
def indexRefError : EngErr :=
  ⟨none, none, none, some "INDEX is not defined"⟩

/-- Source `const keepAlive = pit?.keep_alive || "1m"` (index.js line 156). -/
def keepAliveOf (req : SearchReq) : String :=
  strOr (req.pit.bind PitArg.keep_alive) "1m"

/-- The composed body after the pagination step (index.js lines 161-162):
the (reused) PIT id with its keep-alive, plus `search_after` when the
cursor is a non-empty array. -/
def searchBodyFor (req : SearchReq) (pid : String) : SearchBody :=
  { buildBody req with
    pit := some (pid, keepAliveOf req)
    search_after := cursorOpt req.cursor }

/-- The search handler after the `let pitId = pit?.id` step, taking the
truthy PIT id if any (index.js lines 155-199 and the catch at 200-207). -/
def handleSearchAux (engine : SearchBody → Except EngErr EngResp)
    (req : SearchReq) : Option String → SearchRun
  | none => ⟨[], [], catchSearch indexRefError⟩
  | some pid =>
    match engine (searchBodyFor req pid) with
    | Except.error e => ⟨[], [searchBodyFor req pid], catchSearch e⟩
    | Except.ok r =>
      ⟨[], [searchBodyFor req pid], SearchOut.ok (project r pid (keepAliveOf req))⟩

/-- The `POST /search` handler (index.js lines 48-208), parameterized by
the engine's search endpoint. `let pitId = pit?.id; if (!pitId)` opens a
new PIT — but the open call's argument references `INDEX`, whose
declaration is commented out (line 28), so that path throws a
ReferenceError before any engine call and lands in the catch block (no
`openPointInTime` call is ever recorded). Otherwise the supplied id is
reused, the cursor (when a non-empty array) becomes `search_after`, and
the single search call's response is projected. -/
def handleSearch (engine : SearchBody → Except EngErr EngResp)
    (req : SearchReq) : SearchRun :=
  handleSearchAux engine req (strOpt (req.pit.bind PitArg.id))

/-- Outcome of a `POST /close-pit` call: `ok` is the 200 `{ok:true}`
response; `err` carries the status and the `{ok:false, error}` body's
error value. -/
inductive CloseOut where
  | ok
  | err (status : Int) (error : JsVal)

/-- The `POST /close-pit` handler (index.js lines 212-226), parameterized
by the engine's close endpoint; returns the ids passed to
`closePointInTime` and the HTTP outcome. `if (!id)` rejects every falsy
id (absent, null, empty string, 0, false) with 400 before any engine
call. -/
def handleClosePit (engine : JsVal → Except EngErr Unit)
    (id : Option JsVal) : List JsVal × CloseOut :=
  match id with
  | none => ([], CloseOut.err 400 (JsVal.str "Missing PIT id"))
  | some v =>
    if v.truthy then
      match engine v with
      | Except.ok _ => ([v], CloseOut.ok)
      | Except.error e => ([v], CloseOut.err (errStatus e) (errBody e "Close PIT error"))
    else ([], CloseOut.err 400 (JsVal.str "Missing PIT id"))

/-! Helper lemmas: projections of the composed body and response, and a
list fact connecting `hits[hits.length - 1]` with the last element. -/

theorem buildBody_size (req : SearchReq) :
    (buildBody req).size = min (sizeOr50 req.size) 1000 := rfl

theorem buildBody_rescore (req : SearchReq) :
    (buildBody req).rescore =
      ⟨min 1000 (min (sizeOr50 req.size) 1000),
       "message", "connection reset", 1, 6, 1, 2⟩ := rfl

theorem buildBody_aggs (req : SearchReq) :
    (buildBody req).aggs =
      buildAggs (req.includeFacets.getD true) (req.includeTimeline.getD true) := rfl

theorem buildBody_sqs (req : SearchReq) :
    (buildBody req).sqs = ⟨req.q.getD defaultQ, sqsFields, "and"⟩ := rfl

theorem buildBody_mm (req : SearchReq) :
    (buildBody req).mm = ⟨sanitize (req.q.getD defaultQ), mmFields, "AUTO", 2⟩ := rfl

theorem buildBody_filter (req : SearchReq) :
    (buildBody req).filter =
      (let time := req.time.getD ⟨some "now-24h", some "now"⟩
       let levels := asArray (req.levels.getD (JsVal.arr []))
       let services := asArray (req.services.getD (JsVal.arr []))
       [FilterClause.range "@timestamp" (strOr time.gte "now-24h") (strOr time.lte "now")]
       ++ (if levels.length ≠ 0 then [FilterClause.terms "level" levels] else [])
       ++ (if services.length ≠ 0 then [FilterClause.terms "service" services] else [])) := rfl

theorem project_hits (r : EngResp) (pid ka : String) :
    (project r pid ka).hits = (respHits r).map projHit := rfl

theorem project_facets (r : EngResp) (pid ka : String) :
    (project r pid ka).facets = facetsOf (r.body.bind EngRespBody.aggregations) := rfl

theorem project_timeline (r : EngResp) (pid ka : String) :
    (project r pid ka).timeline =
      (r.body.bind EngRespBody.aggregations).bind EngAggs.timeline := rfl

theorem project_nextCursor (r : EngResp) (pid ka : String) :
    (project r pid ka).nextCursor = nextCursorOf ((respHits r).map projHit) := rfl

theorem get_last_index {α : Type} : ∀ (l : List α), l ≠ [] →
    l.get? (l.length - 1) = l.getLast?
  | [_], _ => rfl
  | a :: b :: t, _ => by
    show (a :: b :: t).get? (t.length + 1) = (a :: b :: t).getLast?
    rw [List.get?_cons_succ, List.getLast?_cons_cons]
    exact get_last_index (b :: t) (by simp)

theorem nextCursorOf_eq_getLast (hits : List NormHit) :
    nextCursorOf hits = hits.getLast?.map NormHit.sort := by
  by_cases h : hits = []
  · subst h; rfl
  · unfold nextCursorOf
    rw [if_pos (by simpa using List.length_pos.mpr h |>.ne'), get_last_index hits h]

/-! Concrete fixtures used by the witnesses and counterexamples. -/

/-- A request with every field absent (all destructuring defaults apply). -/
def baseReq : SearchReq :=
  ⟨none, none, none, none, SizeArg.absent, none, none, none, none, none⟩

/-- An engine response with nothing in it. -/
def engRespEmpty : EngResp := ⟨none, none, none⟩

/-- An engine that answers every search with the empty response. -/
def engOkEmpty : SearchBody → Except EngErr EngResp := fun _ => Except.ok engRespEmpty

/-- Request for a subsequent page: a supplied PIT id plus the cursor of
the spec's worked example. -/
def reqC1 : SearchReq :=
  { baseReq with
    pit := some ⟨some "pitA", none⟩
    cursor := some (JsVal.arr [JsVal.num 1700000000000, JsVal.str "doc#42"]) }

/-- C1: the cursor half holds — with a supplied pit.id and a non-empty
cursor, the single engine search body carries search_after = cursor and
pit.id = the supplied id. The first-page half is broken in the code:
`openPointInTime({index: INDEX, ...})` references `INDEX`, whose
declaration (index.js line 28) is commented out, so a first-page request
(no pit, no cursor) throws a ReferenceError before any engine call and
answers 500 {ok:false, error:"INDEX is not defined"} — no PIT-open call
and no search call are made, contradicting the claimed (and
code-commented) first-page behaviour. -/
theorem C1_first_page_breaks_on_undefined_INDEX :
    handleSearch engOkEmpty baseReq =
      ⟨[], [], SearchOut.err 500 (JsVal.str "INDEX is not defined")⟩ ∧
    (handleSearch engOkEmpty reqC1).searches.map SearchBody.search_after =
      [some [JsVal.num 1700000000000, JsVal.str "doc#42"]] ∧
    (handleSearch engOkEmpty reqC1).searches.map SearchBody.pit =
      [some ("pitA", "1m")] ∧
    (handleSearch engOkEmpty reqC1).pitOpens = [] :=
  ⟨rfl, rfl, rfl, rfl⟩

def reqSize0 : SearchReq := { baseReq with size := SizeArg.val 0 }

def reqSizeNeg : SearchReq := { baseReq with size := SizeArg.val (-5) }

/-- C2 counterexample: requested size 0 is numeric, yet the effective
size is 50, not `min(0, 1000) = 0`; and requested size -5 yields an
effective size of -5, which lies outside `[1, 1000]`. -/
theorem C2_counterexample :
    (buildBody reqSize0).size = 50 ∧ min (0 : Int) 1000 = 0 ∧
    (buildBody reqSizeNeg).size = -5 ∧ ¬(1 ≤ (-5 : Int)) := by
  refine ⟨by decide, by decide, by decide, by decide⟩

/-- C2 amended: the effective page size is `min(s, 1000)` for numeric
non-zero s (so negative sizes are forwarded as-is, outside [1,1000]);
it is 100 when s is absent (the destructuring default) and 50 (the
`|| 50` default) when s is non-numeric or 0; it lies in [1, 1000]
whenever s ≥ 1. -/
theorem C2_effective_size (req : SearchReq) :
    (∀ n : Int, req.size = SizeArg.val n → n ≠ 0 →
       (buildBody req).size = min n 1000) ∧
    (req.size = SizeArg.absent → (buildBody req).size = 100) ∧
    (req.size = SizeArg.nonNumeric → (buildBody req).size = 50) ∧
    (req.size = SizeArg.val 0 → (buildBody req).size = 50) ∧
    (∀ n : Int, req.size = SizeArg.val n → 1 ≤ n →
       1 ≤ (buildBody req).size ∧ (buildBody req).size ≤ 1000) := by
  refine ⟨?_, ?_, ?_, ?_, ?_⟩
  · intro n h hn
    rw [buildBody_size, h]
    simp [sizeOr50, hn]
  · intro h; rw [buildBody_size, h]; norm_num [sizeOr50]
  · intro h; rw [buildBody_size, h]; norm_num [sizeOr50]
  · intro h; rw [buildBody_size, h]; norm_num [sizeOr50]
  · intro n h hn
    rw [buildBody_size, h]
    have hn0 : n ≠ 0 := by omega
    constructor
    · simp only [sizeOr50, if_neg hn0]
      exact le_min hn (by norm_num)
    · simp only [sizeOr50, if_neg hn0]
      exact min_le_right _ _

/-- C2 witness: the amended statement evaluated at sizes 7, absent,
non-numeric and 0. -/
theorem C2_effective_size_witness :
    (buildBody { baseReq with size := SizeArg.val 7 }).size = min 7 1000 ∧
    (buildBody baseReq).size = 100 ∧
    (buildBody { baseReq with size := SizeArg.nonNumeric }).size = 50 ∧
    (buildBody reqSize0).size = 50 ∧
    (1 ≤ (buildBody { baseReq with size := SizeArg.val 7 }).size ∧
     (buildBody { baseReq with size := SizeArg.val 7 }).size ≤ 1000) :=
  ⟨(C2_effective_size _).1 7 rfl (by decide),
   (C2_effective_size baseReq).2.1 rfl,
   (C2_effective_size _).2.2.1 rfl,
   (C2_effective_size reqSize0).2.2.2.1 rfl,
   (C2_effective_size _).2.2.2.2 7 rfl (by decide)⟩

/-- C10: the rescore stage is attached to every composed body and is the
constant phrase "connection reset" on the message field with slop 1 and
boost 6, window `min(1000, body.size)`, query weight 1 and rescore query
weight 2; it does not depend on the query string or any toggle. -/
theorem C10_rescore_constant (req : SearchReq) :
    (buildBody req).rescore =
      ⟨min 1000 (buildBody req).size, "message", "connection reset", 1, 6, 1, 2⟩ ∧
    (∀ q hl tl fc,
       (buildBody { req with q := q, highlight := hl, includeTimeline := tl, includeFacets := fc }).rescore =
         (buildBody req).rescore) :=
  ⟨rfl, fun _ _ _ _ => rfl⟩

/-- C4 counterexample: the structured leg queries `error.code` but the
fuzzy fallback leg does not — the two legs do not match over the same
field set. -/
theorem C4_counterexample :
    "error.code" ∈ (buildBody baseReq).sqs.fields.map fieldBase ∧
    "error.code" ∉ (buildBody baseReq).mm.fields.map fieldBase := by
  constructor <;> decide

/-- C4 amended: the fuzzy leg queries the sanitized copy of q (characters
outside word, whitespace and quote replaced by spaces) with fuzziness
AUTO (bounded edit distance) and prefix length 2, over a strict subset
of the structured leg's field set — every fuzzy-leg field is a
structured-leg field but `error.code` is missing — with `message` at
lower boost (3 versus 4) and the shared non-message fields unboosted in
both legs. -/
theorem C4_fuzzy_leg (req : SearchReq) (q : String) (hq : req.q = some q) :
    (buildBody req).mm.query = sanitize q ∧
    (buildBody req).mm.fuzziness = "AUTO" ∧
    (buildBody req).mm.prefixLength = 2 ∧
    (∀ f ∈ (buildBody req).mm.fields.map fieldBase,
       f ∈ (buildBody req).sqs.fields.map fieldBase) ∧
    fieldBoost "message^3" < fieldBoost "message^4" ∧
    (∀ f ∈ (buildBody req).mm.fields, fieldBase f ≠ "message" → fieldBoost f = 1) := by
  refine ⟨?_, rfl, rfl, ?_, by decide, ?_⟩
  · show sanitize (req.q.getD defaultQ) = sanitize q
    rw [hq]; rfl
  · show ∀ f ∈ mmFields.map fieldBase, f ∈ sqsFields.map fieldBase
    decide
  · show ∀ f ∈ mmFields, fieldBase f ≠ "message" → fieldBoost f = 1
    decide

def reqC4 : SearchReq := { baseReq with q := some "re?et" }

/-- C4 witness: the amended statement at the concrete query "re?et". -/
theorem C4_fuzzy_leg_witness :
    (buildBody reqC4).mm.query = sanitize "re?et" ∧
    (buildBody reqC4).mm.fuzziness = "AUTO" ∧
    (buildBody reqC4).mm.prefixLength = 2 ∧
    (∀ f ∈ (buildBody reqC4).mm.fields.map fieldBase,
       f ∈ (buildBody reqC4).sqs.fields.map fieldBase) ∧
    fieldBoost "message^3" < fieldBoost "message^4" ∧
    (∀ f ∈ (buildBody reqC4).mm.fields, fieldBase f ≠ "message" → fieldBoost f = 1) :=
  C4_fuzzy_leg reqC4 "re?et" rfl

/-- C6: nextCursor equals the sort values of the last hit when hits is
non-empty, and is null when the page is empty. -/
theorem C6_nextCursor (r : EngResp) (pid ka : String) :
    ((project r pid ka).hits = [] → (project r pid ka).nextCursor = none) ∧
    (∀ h : NormHit, (project r pid ka).hits.getLast? = some h →
       (project r pid ka).nextCursor = some h.sort) := by
  constructor
  · intro h
    rw [project_nextCursor, ← project_hits r pid ka, h]; rfl
  · intro h hh
    rw [project_nextCursor, ← project_hits r pid ka, nextCursorOf_eq_getLast, hh]
    rfl

def hitC6 : EngHit := ⟨"h1", [JsVal.num 5], none, none, none⟩

def engRespC6 : EngResp := ⟨none, some [hitC6], none⟩

/-- C6 witness: a one-hit response yields that hit's sort values as the
cursor; the empty response yields null. -/
theorem C6_nextCursor_witness :
    (project engRespC6 "p" "1m").nextCursor = some [JsVal.num 5] ∧
    (project engRespEmpty "p" "1m").nextCursor = none :=
  ⟨(C6_nextCursor engRespC6 "p" "1m").2 (projHit hitC6) rfl,
   (C6_nextCursor engRespEmpty "p" "1m").1 rfl⟩

def reqC3 : SearchReq :=
  { baseReq with includeFacets := some false, includeTimeline := some true, pit := some ⟨some "p1", none⟩ }

def engRespC3 : EngResp :=
  ⟨some ⟨none, none, none, some ⟨none, none, none, some [JsVal.num 3]⟩⟩, none, none⟩

def engC3 : SearchBody → Except EngErr EngResp := fun _ => Except.ok engRespC3

/-- C3 counterexample: with includeFacets=false and includeTimeline=true
the engine response carries an aggregations object (the requested
timeline), and the gateway's facets section is present — an object of
three empty bucket lists — even though includeFacets was false: facet
presence is keyed on `resp.body?.aggregations` alone, not on the
toggle, falsifying the claimed "iff". -/
theorem C3_counterexample :
    reqC3.includeFacets = some false ∧
    (handleSearch engC3 reqC3).out =
      SearchOut.ok ⟨none, "p1", "1m", [], some ⟨[], [], []⟩, some [JsVal.num 3], none⟩ :=
  ⟨rfl, rfl⟩

/-- C3 amended: the request attaches aggregations iff includeFacets or
includeTimeline is true; the response contains the facets section iff
the engine response has a `body.aggregations` object — regardless of the
includeFacets toggle — and the timeline section equals
`body.aggregations.timeline.buckets` (absent when that is absent). -/
theorem C3_sections (req : SearchReq) (r : EngResp) (pid ka : String) :
    ((buildBody req).aggs ≠ none ↔
       (req.includeFacets.getD true = true ∨ req.includeTimeline.getD true = true)) ∧
    ((project r pid ka).facets ≠ none ↔ r.body.bind EngRespBody.aggregations ≠ none) ∧
    ((project r pid ka).timeline =
       (r.body.bind EngRespBody.aggregations).bind EngAggs.timeline) := by
  refine ⟨?_, ?_, project_timeline r pid ka⟩
  · rw [buildBody_aggs]
    cases hf : req.includeFacets.getD true <;> cases ht : req.includeTimeline.getD true <;>
      simp [buildAggs]
  · rw [project_facets]
    cases h : r.body.bind EngRespBody.aggregations <;> simp [facetsOf]

def reqC5 : SearchReq :=
  { baseReq with pit := some ⟨some "pit-B", none⟩, cursor := some (JsVal.arr [JsVal.num 1700000000000, JsVal.str "doc#42"]) }

/-- C5 counterexample: the handler's output is a function of the request
alone — nothing records which PIT generation produced a cursor — so take
a request whose cursor was produced under some other PIT while pit.id is
"pit-B": the gateway neither rejects the request (it answers 200) nor
ignores the cursor; it forwards search_after = cursor together with
pit.id "pit-B" to the engine. -/
theorem C5_counterexample :
    (handleSearch engOkEmpty reqC5).searches.map SearchBody.search_after =
      [some [JsVal.num 1700000000000, JsVal.str "doc#42"]] ∧
    (handleSearch engOkEmpty reqC5).searches.map SearchBody.pit =
      [some ("pit-B", "1m")] ∧
    (handleSearch engOkEmpty reqC5).out =
      SearchOut.ok (project engRespEmpty "pit-B" "1m") :=
  ⟨rfl, rfl, rfl⟩

theorem searchBodyFor_search_after (req : SearchReq) (pid : String) :
    (searchBodyFor req pid).search_after = cursorOpt req.cursor := rfl

theorem searchBodyFor_pit (req : SearchReq) (pid : String) :
    (searchBodyFor req pid).pit = some (pid, keepAliveOf req) := rfl

theorem handleSearchAux_searches (engine : SearchBody → Except EngErr EngResp)
    (req : SearchReq) (pid : String) :
    (handleSearchAux engine req (some pid)).searches = [searchBodyFor req pid] := by
  cases h : engine (searchBodyFor req pid) <;> simp [handleSearchAux, h]

theorem handleSearchAux_out_error (engine : SearchBody → Except EngErr EngResp)
    (req : SearchReq) (pid : String) (e : EngErr)
    (he : engine (searchBodyFor req pid) = Except.error e) :
    (handleSearchAux engine req (some pid)).out = catchSearch e := by
  simp [handleSearchAux, he]

/-- C5 amended: the gateway performs no cursor-PIT pairing validation.
Whenever a truthy pit.id and a non-empty array cursor are supplied —
paired or not — the single engine search body carries search_after =
cursor and pit.id = the supplied id, and the request is not rejected.
Only a request without a truthy pit.id avoids forwarding its cursor, and
then only because the PIT-open path throws a ReferenceError on the
undefined `INDEX`, answering 500 before any engine call. -/
theorem C5_no_pairing_validation (engine : SearchBody → Except EngErr EngResp)
    (req : SearchReq) (pid : String) (cur : List JsVal)
    (hp : strOpt (req.pit.bind PitArg.id) = some pid)
    (hc : cursorOpt req.cursor = some cur) :
    (handleSearch engine req).searches.map SearchBody.search_after = [some cur] ∧
    (handleSearch engine req).searches.map SearchBody.pit =
      [some (pid, keepAliveOf req)] ∧
    (∀ req2 : SearchReq, strOpt (req2.pit.bind PitArg.id) = none →
       (handleSearch engine req2).searches = [] ∧
       (handleSearch engine req2).out =
         SearchOut.err 500 (JsVal.str "INDEX is not defined")) := by
  have hrun : handleSearch engine req = handleSearchAux engine req (some pid) :=
    congrArg (handleSearchAux engine req) hp
  rw [hrun, handleSearchAux_searches]
  refine ⟨?_, ?_, ?_⟩
  · rw [List.map_singleton, searchBodyFor_search_after, hc]
  · rw [List.map_singleton, searchBodyFor_pit]
  · intro req2 h2
    have h2run : handleSearch engine req2 = handleSearchAux engine req2 none :=
      congrArg (handleSearchAux engine req2) h2
    rw [h2run]
    exact ⟨rfl, rfl⟩

/-- C5 witness: the amended statement at the concrete mismatched-cursor
request. -/
theorem C5_no_pairing_validation_witness :
    (handleSearch engOkEmpty reqC5).searches.map SearchBody.search_after =
      [some [JsVal.num 1700000000000, JsVal.str "doc#42"]] ∧
    (handleSearch engOkEmpty reqC5).searches.map SearchBody.pit =
      [some ("pit-B", keepAliveOf reqC5)] ∧
    (∀ req2 : SearchReq, strOpt (req2.pit.bind PitArg.id) = none →
       (handleSearch engOkEmpty req2).searches = [] ∧
       (handleSearch engOkEmpty req2).out =
         SearchOut.err 500 (JsVal.str "INDEX is not defined")) :=
  C5_no_pairing_validation engOkEmpty reqC5 "pit-B"
    [JsVal.num 1700000000000, JsVal.str "doc#42"] rfl rfl

/-- An engine whose close-PIT endpoint always succeeds. -/
def engCloseOk : JsVal → Except EngErr Unit := fun _ => Except.ok ()

/-- C7 counterexample: a body carrying the id "" — an id is present — is
answered 400 {ok:false, error:"Missing PIT id"} with no engine call,
because `if (!id)` treats every falsy id as missing; the claim's second
half (id present → close call made and 200 on success) fails. -/
theorem C7_counterexample :
    handleClosePit engCloseOk (some (JsVal.str "")) =
      ([], CloseOut.err 400 (JsVal.str "Missing PIT id")) := rfl

/-- C7 amended: a body with no id — or any falsy id, such as the empty
string — is answered 400 {ok:false, error:"Missing PIT id"} with no
engine call; when a truthy id is present, the close call is made with it
and a success answers 200 {ok:true}. -/
theorem C7_close_pit (engine : JsVal → Except EngErr Unit) (id : Option JsVal) :
    ((id = none ∨ (∃ v, id = some v ∧ v.truthy = false)) →
       handleClosePit engine id = ([], CloseOut.err 400 (JsVal.str "Missing PIT id"))) ∧
    (∀ v, id = some v → v.truthy = true → engine v = Except.ok () →
       handleClosePit engine id = ([v], CloseOut.ok)) := by
  constructor
  · rintro (rfl | ⟨v, rfl, hv⟩)
    · rfl
    · simp [handleClosePit, hv]
  · rintro v rfl hv he
    simp [handleClosePit, hv, he]

/-- C7 witness: the amended statement at an absent id and at the truthy
id "p1". -/
theorem C7_close_pit_witness :
    handleClosePit engCloseOk none = ([], CloseOut.err 400 (JsVal.str "Missing PIT id")) ∧
    handleClosePit engCloseOk (some (JsVal.str "p1")) = ([JsVal.str "p1"], CloseOut.ok) :=
  ⟨(C7_close_pit engCloseOk none).1 (Or.inl rfl),
   (C7_close_pit engCloseOk (some (JsVal.str "p1"))).2 (JsVal.str "p1") rfl rfl rfl⟩

/-- The error thrown by the elasticsearch client when the engine is
unreachable: no HTTP status, no structured engine error, only the
exception's own message. -/
def errConnRefused : EngErr :=
  ⟨none, none, none, some "connect ECONNREFUSED 127.0.0.1:9200"⟩

def engErrC8 : SearchBody → Except EngErr EngResp := fun _ => Except.error errConnRefused

def reqC8 : SearchReq := { baseReq with pit := some ⟨some "p8", none⟩ }

/-- C8 counterexample: the engine is unreachable, so the thrown error has
no engine-reported structured error (meta.body.error absent) — the claim
then demands a generic fallback string, but the client receives the raw
internal exception message "connect ECONNREFUSED ...", not "Search
error". -/
theorem C8_counterexample :
    (handleSearch engErrC8 reqC8).out =
      SearchOut.err 500 (JsVal.str "connect ECONNREFUSED 127.0.0.1:9200") ∧
    errConnRefused.metaBodyError = none ∧
    JsVal.str "connect ECONNREFUSED 127.0.0.1:9200" ≠ JsVal.str "Search error" := by
  refine ⟨rfl, rfl, fun h => ?_⟩
  injection h with h'
  exact absurd h' (by decide)

/-- C8 amended: on a search failure the status is err.statusCode when a
nonzero one is present, else err.meta.statusCode when a nonzero one is
present, else 500; the error value is the engine's structured
meta.body.error when present and truthy, else the exception's own
message when present and non-empty — so internal exception messages are
returned verbatim to the client — else the generic "Search error"
fallback. -/
theorem C8_error_shape (engine : SearchBody → Except EngErr EngResp)
    (req : SearchReq) (e : EngErr) (pid : String)
    (hp : strOpt (req.pit.bind PitArg.id) = some pid)
    (he : ∀ b, engine b = Except.error e) :
    (handleSearch engine req).out = SearchOut.err (errStatus e) (errBody e "Search error") ∧
    (e.statusCode = none → e.metaStatusCode = none → errStatus e = 500) ∧
    (∀ n, e.statusCode = some n → n ≠ 0 → errStatus e = n) ∧
    (e.statusCode = none → ∀ n, e.metaStatusCode = some n → n ≠ 0 → errStatus e = n) ∧
    (∀ v, e.metaBodyError = some v → v.truthy = true → errBody e "Search error" = v) ∧
    (e.metaBodyError = none → ∀ m, e.message = some m → m ≠ "" →
       errBody e "Search error" = JsVal.str m) ∧
    (e.metaBodyError = none → e.message = none →
       errBody e "Search error" = JsVal.str "Search error") := by
  have hrun : handleSearch engine req = handleSearchAux engine req (some pid) :=
    congrArg (handleSearchAux engine req) hp
  refine ⟨?_, ?_, ?_, ?_, ?_, ?_, ?_⟩
  · rw [hrun, handleSearchAux_out_error engine req pid e (he _)]; rfl
  · rintro h1 h2; simp [errStatus, h1, h2, numOr]
  · rintro n h hn; simp [errStatus, h, numOr, hn]
  · rintro h1 n h hn; simp [errStatus, h1, h, numOr, hn]
  · rintro v h hv; simp [errBody, h, jsOrVal, hv]
  · rintro h1 m h hm
    simp [errBody, h1, h, jsOrVal, JsVal.truthy, hm]
  · rintro h1 h2; simp [errBody, h1, h2, jsOrVal]

/-- An engine failure carrying an HTTP status and a structured error. -/
def errEngine400 : EngErr :=
  ⟨some 400, some 400, some (JsVal.str "parse_exception"), some "Bad Request"⟩

def engErr400 : SearchBody → Except EngErr EngResp := fun _ => Except.error errEngine400

/-- C8 witness: the amended statement at the unreachable-engine error
(status 500, raw message leaked) and at a structured engine error
(status 400, structured error returned). -/
theorem C8_error_shape_witness :
    (handleSearch engErrC8 reqC8).out =
      SearchOut.err (errStatus errConnRefused) (errBody errConnRefused "Search error") ∧
    errStatus errConnRefused = 500 ∧
    errBody errConnRefused "Search error" =
      JsVal.str "connect ECONNREFUSED 127.0.0.1:9200" ∧
    (handleSearch engErr400 reqC8).out =
      SearchOut.err (errStatus errEngine400) (errBody errEngine400 "Search error") ∧
    errStatus errEngine400 = 400 ∧
    errBody errEngine400 "Search error" = JsVal.str "parse_exception" :=
  ⟨(C8_error_shape engErrC8 reqC8 errConnRefused "p8" rfl (fun _ => rfl)).1,
   (C8_error_shape engErrC8 reqC8 errConnRefused "p8" rfl (fun _ => rfl)).2.1 rfl rfl,
   (C8_error_shape engErrC8 reqC8 errConnRefused "p8" rfl (fun _ => rfl)).2.2.2.2.2.1 rfl
     "connect ECONNREFUSED 127.0.0.1:9200" rfl (by decide),
   (C8_error_shape engErr400 reqC8 errEngine400 "p8" rfl (fun _ => rfl)).1,
   (C8_error_shape engErr400 reqC8 errEngine400 "p8" rfl (fun _ => rfl)).2.2.1 400 rfl (by decide),
   (C8_error_shape engErr400 reqC8 errEngine400 "p8" rfl (fun _ => rfl)).2.2.2.2.1
     (JsVal.str "parse_exception") rfl rfl⟩

def reqLevelNull : SearchReq := { baseReq with levels := some JsVal.null }

def reqLevelNullList : SearchReq := { baseReq with levels := some (JsVal.arr [JsVal.null]) }

/-- C9 counterexample: at the scalar value v = null, the scalar form
produces no level filter clause (asArray(null) = []) while the
one-element list [null] produces a terms clause — the engine filter
clauses differ, falsifying the universally quantified claim. -/
theorem C9_counterexample :
    (buildBody reqLevelNull).filter.length = 1 ∧
    (buildBody reqLevelNullList).filter.length = 2 ∧
    (buildBody reqLevelNull).filter ≠ (buildBody reqLevelNullList).filter := by
  refine ⟨by decide, by decide, fun h => ?_⟩
  exact absurd (congrArg List.length h) (by decide)

/-- C9 amended: for every non-null, non-array value v, supplying levels
(or services) as the scalar v yields exactly the filter clauses of the
one-element list [v]; and normalization is idempotent — asArray of an
array is that array, so re-normalizing a normalized value changes
nothing. The original claim fails only at v = null. -/
theorem C9_scalar_list_equiv (v : JsVal) (req : SearchReq) :
    (v ≠ JsVal.null → (∀ xs, v ≠ JsVal.arr xs) →
       asArray v = asArray (JsVal.arr [v]) ∧
       (buildBody { req with levels := some v }).filter =
         (buildBody { req with levels := some (JsVal.arr [v]) }).filter ∧
       (buildBody { req with services := some v }).filter =
         (buildBody { req with services := some (JsVal.arr [v]) }).filter) ∧
    (∀ xs, asArray (JsVal.arr xs) = xs) ∧
    asArray (JsVal.arr (asArray v)) = asArray v := by
  refine ⟨?_, fun xs => rfl, rfl⟩
  intro hnull harr
  cases v with
  | null => exact absurd rfl hnull
  | arr xs => exact absurd rfl (harr xs)
  | bool b => exact ⟨rfl, rfl, rfl⟩
  | num n => exact ⟨rfl, rfl, rfl⟩
  | str s => exact ⟨rfl, rfl, rfl⟩

/-- C9 witness: the amended statement at the scalar "error". -/
theorem C9_scalar_list_equiv_witness :
    asArray (JsVal.str "error") = asArray (JsVal.arr [JsVal.str "error"]) ∧
    (buildBody { baseReq with levels := some (JsVal.str "error") }).filter =
      (buildBody { baseReq with levels := some (JsVal.arr [JsVal.str "error"]) }).filter :=
  ⟨((C9_scalar_list_equiv (JsVal.str "error") baseReq).1
      (fun h => JsVal.noConfusion h) (fun _ h => JsVal.noConfusion h)).1,
   ((C9_scalar_list_equiv (JsVal.str "error") baseReq).1
      (fun h => JsVal.noConfusion h) (fun _ h => JsVal.noConfusion h)).2.1⟩
